import Mathlib

/-!
Shallow embedding of `src/filesize_cli/cli.py` (filesize-cli).

Modelling conventions:
* Python integers are `Nat`/`Int` (byte sizes from `st_size` are non-negative).
* Python float division followed by `f"{value:.2f}"` is modelled as exact
  rational arithmetic rounded half-to-even to two decimal places; every
  theorem about that rendering quantifies over `size < 2^53`, where the IEEE
  double quotient `size / 1024^k` is exact and CPython's formatting rounds it
  half-to-even, so model and code agree on the whole quantified range.  The
  `int(size / factor)` rendering of the bytes branch is modelled with the
  float conversion made explicit (`pyFloatNat`): `size / 1` rounds `size` to
  the nearest double (ties to even) before `int` truncates it, which loses
  precision for `size ≥ 2^53`.
* The filesystem visible to `pathlib` is a tree of nodes: a regular file with a
  size and an optional stat error, a directory with an entry list and an
  optional enumeration error, or any other kind of entry (device, socket, ...).
  `Path.exists` / `is_file` / `is_dir` / `stat` / `iterdir` / `rglob` are read
  off the tree; `str(Path(s))` is modelled as `s` (normalized path strings).
* Python exceptions become an explicit error type distinguishing the classes
  that matter to the code's `except` clauses: `FileNotFoundError` /
  `PermissionError` / `OSError` on one side (all caught by `get_size`) and
  `ValueError` on the other (not caught by `get_size`).
-/

namespace FilesizeCli

/-- Binary unit constants, cli.py lines 31-34. -/
def KB : Nat := 1024

def MB : Nat := KB ^ 2

def GB : Nat := KB ^ 3

def TB : Nat := KB ^ 4

/-- The keys of `UNIT_MAP`; argparse restricts `--unit` to exactly these. -/
inductive UnitKey where
  | b
  | kb
  | mb
  | gb
  | tb
deriving DecidableEq, Repr

/-- Embedding of `UNIT_MAP`, cli.py lines 37-43: abbreviation to (factor, suffix). -/
def UNIT_MAP : UnitKey → Nat × String
  | .b => (1, "B")
  | .kb => (KB, "KB")
  | .mb => (MB, "MB")
  | .gb => (GB, "GB")
  | .tb => (TB, "TB")

/-- Round `a / b` (with `b > 0`) to the nearest integer, ties to even:
the rounding CPython's `format` applies to an exactly representable value. -/
def roundHalfEven (a b : Nat) : Nat :=
  let q := a / b
  let r := a % b
  if 2 * r < b then q
  else if b < 2 * r then q + 1
  else if q % 2 = 0 then q
  else q + 1

/-- Left-pad a two-digit fractional part with a zero. -/
def pad2 (m : Nat) : String :=
  if m < 10 then "0" ++ toString m else toString m

/-- Model of `f"{value:.2f}"` where `value = size / factor`, exact. -/
def fmtTwoDec (size factor : Nat) : String :=
  let t := roundHalfEven (100 * size) factor
  toString (t / 100) ++ "." ++ pad2 (t % 100)

/-- Number of halvings needed to bring the second argument below `2^53`: for
`m ≥ 2^53` this is how many low significand bits the nearest-double rounding
must drop.  The first argument is fuel, always passed `≥ m`. -/
def excessBits : Nat → Nat → Nat
  | 0, _ => 0
  | fuel + 1, m => if m < 2 ^ 53 then 0 else excessBits fuel (m / 2) + 1

/-- The nearest IEEE-754 double to a non-negative integer, ties to even: the
value CPython computes as `float(n)` — and hence as `n / 1` — before `int`
truncates it back.  Exact below `2^53`; above, `n` is rounded to 53
significant bits (the realizable range stays far below the `2^1024` overflow
threshold, which is therefore not modelled). -/
def pyFloatNat (n : Nat) : Nat :=
  if n < 2 ^ 53 then n
  else
    let e := excessBits n n
    let q := n / 2 ^ e
    let r := n % 2 ^ e
    (if 2 * r < 2 ^ e then q
     else if 2 ^ e < 2 * r then q + 1
     else if q % 2 = 0 then q
     else q + 1) * 2 ^ e

/-- The rendering shared by both branches of `_format_size`, cli.py lines
221 and 227-229: `f"{value:.2f} {suffix}" if factor != 1 else
f"{int(value)} {suffix}"`, where `value = size / factor` is a float — so for
`factor = 1`, `int(value)` is `size` rounded to the nearest double. -/
def renderValue (size factor : Nat) (suffix : String) : String :=
  if factor ≠ 1 then fmtTwoDec size factor ++ " " ++ suffix
  else toString (pyFloatNat size) ++ " " ++ suffix

/-- The auto-selection loop of `_format_size`, cli.py lines 223-231: scan the
keys in the order `("tb", "gb", "mb", "kb", "b")`, pick the first whose factor
is `≤ size`; the fallback after the loop is `f"{int(size)} B"`. -/
def scanUnits (size : Nat) : List UnitKey → String
  | [] => toString size ++ " B"
  | u :: rest =>
    if (UNIT_MAP u).1 ≤ size then renderValue size (UNIT_MAP u).1 (UNIT_MAP u).2
    else scanUnits size rest

/-- Embedding of `_format_size` on a non-negative size: forced-unit branch (cli.py lines
218-221) or auto-selection (lines 223-231). -/
def formatNonneg (size : Nat) (unit : Option UnitKey) : String :=
  match unit with
  | some u => renderValue size (UNIT_MAP u).1 (UNIT_MAP u).2
  | none => scanUnits size [.tb, .gb, .mb, .kb, .b]

/-- Embedding of `_format_size`, cli.py lines 205-231.  A negative size raises
`ValueError("Size must be a non-negative number")` (line 215-216); the
`isinstance` half of that guard is vacuous here since the argument is an
integer by type. -/
def formatSize (size : Int) (unit : Option UnitKey) : Except String String :=
  if size < 0 then .error "Size must be a non-negative number"
  else .ok (formatNonneg size.toNat unit)

/-- A node of the filesystem tree as seen through `pathlib`:
* `file size statErr`: a regular file; `statErr = some e` means `stat()` on it
  raises `OSError(e)`.
* `dir entries listErr`: a directory; `listErr = some e` means enumerating it
  (`iterdir` / `rglob`) raises `OSError(e)`.
* `other`: an entry that exists but is neither a regular file nor a directory
  (device node, socket, broken-link target, ...). -/
inductive FSNode where
  | file (size : Nat) (statErr : Option String)
  | dir (entries : List FSNode) (listErr : Option String)
  | other

/-- The dictionary `{"files": ..., "size": ...}` returned by `_compute_size`
(the `"unit"` key is the constant `"bytes"` and never read). -/
structure SizeStats where
  files : Nat
  size : Nat
deriving DecidableEq, Repr

/-- The Python exception classes the code distinguishes: `FileNotFoundError`
and `PermissionError`/`OSError` (all matched by the `except` tuple in
`get_size`, cli.py line 127) versus `ValueError` (not matched there). -/
inductive PyErr where
  | fileNotFound (msg : String)
  | osError (msg : String)
  | valueError (msg : String)
deriving DecidableEq, Repr

/-- Model of `str(e)` for the exceptions above: the message they were built with. -/
def PyErr.message : PyErr → String
  | .fileNotFound m => m
  | .osError m => m
  | .valueError m => m

/-- Whether `except (FileNotFoundError, PermissionError, OSError)` in
`get_size` (cli.py line 127) catches the exception.  `ValueError` is not in
the tuple and is not an `OSError` subclass, so it is not caught. -/
def PyErr.caughtByGetSize : PyErr → Bool
  | .fileNotFound _ => true
  | .osError _ => true
  | .valueError _ => false

/-- Model of `path.rglob("*")` over an entry list: every descendant entry, each
directory followed by its own expansion.  A subdirectory whose enumeration
fails is yielded but not descended into (pathlib's glob machinery skips
directories it cannot scan); a failure on the directory `rglob` was called on
itself is raised, which `computeSize` below models via `listErr`. -/
def rglobList : List FSNode → List FSNode
  | [] => []
  | FSNode.dir es none :: rest => FSNode.dir es none :: (rglobList es ++ rglobList rest)
  | e :: rest => e :: rglobList rest

/-- The loop body of the directory branch of `_compute_size`, cli.py lines
191-197: a regular file whose `stat()` succeeds is accumulated; a regular file
whose `stat()` raises `OSError` is skipped (`continue`); anything that is not
a regular file is skipped by the `is_file()` test. -/
def scanStep (acc : SizeStats) (item : FSNode) : SizeStats :=
  match item with
  | .file size none => ⟨acc.files + 1, acc.size + size⟩
  | _ => acc

/-- Embedding of `_compute_size`, cli.py lines 167-203.  `path` is the string rendering of
the `Path` argument, used only in error messages. -/
def computeSize (recursive : Bool) (path : String) (node : FSNode) : Except PyErr SizeStats :=
  match node with
  | .file size none => .ok ⟨1, size⟩
  | .file _ (some e) =>
    .error (.osError ("Cannot access file " ++ path ++ ": " ++ e))
  | .dir entries none =>
    let iterator := if recursive then rglobList entries else entries
    .ok (iterator.foldl scanStep ⟨0, 0⟩)
  | .dir _ (some e) =>
    .error (.osError ("Cannot access directory " ++ path ++ ": " ++ e))
  | .other =>
    .error (.valueError ("Path is neither file nor directory: " ++ path))

/-- The three argparse flags the core reads (`self.args`). -/
structure Config where
  clean : Bool
  recursive : Bool
  unit : Option UnitKey

/-- The filesystem at invocation time: which node, if any, each path string
resolves to.  `Path.exists()` is `(lookup p).isSome`. -/
structure FileSystem where
  lookup : String → Option FSNode

/-- Embedding of `_process_path`, cli.py lines 153-165: existence check, size computation,
formatting (computed even in clean mode, line 159), then clean or annotated
rendering. -/
def processPath (cfg : Config) (fs : FileSystem) (pathStr : String) : Except PyErr String :=
  match fs.lookup pathStr with
  | none => .error (.fileNotFound ("Path does not exist: " ++ pathStr))
  | some node =>
    match computeSize cfg.recursive pathStr node with
    | .error e => .error e
    | .ok stats =>
      match formatSize (stats.size : Int) cfg.unit with
      | .error m => .error (.valueError m)
      | .ok formatted =>
        if cfg.clean then .ok (toString stats.size)
        else
          .ok (pathStr ++ ": " ++ formatted ++ " (" ++ toString stats.files ++ " " ++
            (if stats.files = 1 then "file" else "files") ++ ")")

/-- The accumulation loop of `get_size`, cli.py lines 121-128: per path, a
success line or — when the exception is one the `except` tuple catches — the
line `f"{path_str}: Error - {e}"`; an uncaught exception propagates and
aborts the loop. -/
def getSizeLines (cfg : Config) (fs : FileSystem) : List String → Except PyErr (List String)
  | [] => .ok []
  | p :: rest =>
    match processPath cfg fs p with
    | .ok line =>
      match getSizeLines cfg fs rest with
      | .ok more => .ok (line :: more)
      | .error e => .error e
    | .error e =>
      if e.caughtByGetSize then
        match getSizeLines cfg fs rest with
        | .ok more => .ok ((p ++ ": Error - " ++ e.message) :: more)
        | .error e2 => .error e2
      else .error e

/-- Embedding of `get_size` on an explicit path list, cli.py lines 120-133:
`"\n".join(results)`. -/
def getSize (cfg : Config) (fs : FileSystem) (paths : List String) : Except PyErr String :=
  match getSizeLines cfg fs paths with
  | .ok results => .ok (String.intercalate "\n" results)
  | .error e => .error e

/-- The sizes of exactly those items that are regular files and whose
`stat()` succeeds — the items `scanStep` accumulates. -/
def readableFileSizes (items : List FSNode) : List Nat :=
  items.filterMap fun item =>
    match item with
    | .file size none => some size
    | _ => none

mutual

/-- No stat or enumeration error anywhere in the node's subtree. -/
def nodeOk : FSNode → Bool
  | .file _ statErr => statErr.isNone
  | .dir es listErr => listErr.isNone && listOk es
  | .other => true

/-- Conjunction of `nodeOk` over every node in the list. -/
def listOk : List FSNode → Bool
  | [] => true
  | e :: rest => nodeOk e && listOk rest

end

mutual

/-- Number of regular files in a node's whole subtree (the node included). -/
def fileCountN : FSNode → Nat
  | .file _ _ => 1
  | .dir es _ => fileCountL es
  | .other => 0

/-- Number of regular files in the whole subtrees of a list of nodes. -/
def fileCountL : List FSNode → Nat
  | [] => 0
  | e :: rest => fileCountN e + fileCountL rest

end

mutual

/-- Total size of the regular files in a node's whole subtree. -/
def byteSizeN : FSNode → Nat
  | .file s _ => s
  | .dir es _ => byteSizeL es
  | .other => 0

/-- Total size of the regular files in the whole subtrees of a list. -/
def byteSizeL : List FSNode → Nat
  | [] => 0
  | e :: rest => byteSizeN e + byteSizeL rest

end

/-- Number of regular files among the immediate entries of a directory. -/
def topCount : List FSNode → Nat
  | [] => 0
  | FSNode.file _ _ :: rest => 1 + topCount rest
  | _ :: rest => topCount rest

/-- Total size of the regular files among the immediate entries. -/
def topSize : List FSNode → Nat
  | [] => 0
  | FSNode.file s _ :: rest => s + topSize rest
  | _ :: rest => topSize rest

/-- Number of regular files strictly below the immediate entries (inside
subdirectories). -/
def subCount : List FSNode → Nat
  | [] => 0
  | FSNode.dir inner _ :: rest => fileCountL inner + subCount rest
  | _ :: rest => subCount rest

/-- Total size of the regular files strictly below the immediate entries. -/
def subSize : List FSNode → Nat
  | [] => 0
  | FSNode.dir inner _ :: rest => byteSizeL inner + subSize rest
  | _ :: rest => subSize rest

/-- The suffix of the unit at binary exponent `k` (1024^k), as the claims
index the unit table. -/
def expSuffix : Nat → String
  | 1 => "KB"
  | 2 => "MB"
  | 3 => "GB"
  | 4 => "TB"
  | _ => "B"

/-- The line `get_size` contributes for one path: the `_process_path` result
on success, `f"{path_str}: Error - {e}"` when the exception is caught. -/
def outcomeLine (cfg : Config) (fs : FileSystem) (p : String) : String :=
  match processPath cfg fs p with
  | .ok line => line
  | .error e => p ++ ": Error - " ++ e.message

/-- Holds (as `true`) unless the per-path outcome is a `ValueError` (the one exception
class `get_size`'s `except` tuple does not catch). -/
def resultCaught (r : Except PyErr String) : Bool :=
  match r with
  | .error (.valueError _) => false
  | _ => true

/-- A small concrete filesystem used by witnesses and counterexamples:
`"weird"` is a non-file non-directory entry, `"a.txt"` a 13-byte file,
`"d"` a directory with two top-level files and one file in a subdirectory,
and every other path does not exist. -/
def fsDemo : FileSystem :=
  FileSystem.mk fun p =>
    if p = "weird" then some FSNode.other
    else if p = "a.txt" then some (FSNode.file 13 none)
    else if p = "d" then
      some (FSNode.dir [FSNode.file 100 none, FSNode.file 200 none,
        FSNode.dir [FSNode.file 300 none] none] none)
    else none

/-- Default flags: no clean mode, no recursion, no forced unit. -/
def cfgPlain : Config := Config.mk false false none

/-- Clean mode, no recursion, no forced unit. -/
def cfgClean : Config := Config.mk true false none

end FilesizeCli

namespace FilesizeCli

theorem formatSize_nat (n : Nat) (u : Option UnitKey) :
    formatSize (n : Int) u = .ok (formatNonneg n u) := by
  have h : ¬((n : Int) < 0) := by
    exact Int.not_lt.mpr (Int.natCast_nonneg n)
  simp [formatSize, h]

theorem scanUnits_eq (n : Nat) :
    scanUnits n [.tb, .gb, .mb, .kb, .b] =
      if 1099511627776 ≤ n then renderValue n 1099511627776 "TB"
      else if 1073741824 ≤ n then renderValue n 1073741824 "GB"
      else if 1048576 ≤ n then renderValue n 1048576 "MB"
      else if 1024 ≤ n then renderValue n 1024 "KB"
      else if 1 ≤ n then renderValue n 1 "B"
      else toString n ++ " B" := by
  norm_num [scanUnits, UNIT_MAP, TB, GB, MB, KB]

theorem pad2_length (m : Nat) (h : m < 100) : (pad2 m).length = 2 := by
  interval_cases m <;> rfl

/-- Claim C7: a negative byte count makes `_format_size` raise
`ValueError("Size must be a non-negative number")` for every unit setting,
forced or none; it never returns a string. -/
theorem format_negative_always_fails (size : Int) (u : Option UnitKey)
    (h : size < 0) :
    formatSize size u = .error "Size must be a non-negative number" := by
  simp [formatSize, h]

theorem format_negative_always_fails_witness :
    formatSize (-1) none = .error "Size must be a non-negative number" :=
  format_negative_always_fails (-1) none (by decide)

theorem pyFloatNat_eq_self (n : Nat) (h : n < 2 ^ 53) : pyFloatNat n = n := by
  unfold pyFloatNat
  rw [if_pos h]

/-- Claim C6 (amended): for `n < 2^53` — the range where `float(n)` is exact —
formatting `n` in the bytes unit, forced or auto-selected (including the
`n = 0` fallback), renders exactly the integer `n` followed by `" B"`, with
no decimal places.  (Beyond `2^53` the float division `size / 1` at cli.py
line 220 rounds `n` before `int` truncates it; see the counterexample.) -/
theorem format_bytes_integer (n : Nat) (h53 : n < 2 ^ 53) :
    formatSize (n : Int) (some UnitKey.b) = .ok (toString n ++ " B") ∧
    (n < 1024 → formatSize (n : Int) none = .ok (toString n ++ " B")) := by
  constructor
  · rw [formatSize_nat]
    simp [formatNonneg, UNIT_MAP, renderValue, pyFloatNat_eq_self n h53]
    rw [String.append_assoc]
    rfl
  · intro h
    rw [formatSize_nat]
    simp only [formatNonneg]
    rw [scanUnits_eq]
    rw [if_neg (by omega), if_neg (by omega), if_neg (by omega), if_neg (by omega)]
    by_cases h1 : 1 ≤ n
    · rw [if_pos h1]
      simp [renderValue, pyFloatNat_eq_self n h53]
      rw [String.append_assoc]
      rfl
    · rw [if_neg h1]

theorem format_bytes_integer_witness :
    (13 : Nat) < 2 ^ 53 ∧
    formatSize ((13 : Nat) : Int) none = .ok (toString (13 : Nat) ++ " B") :=
  ⟨by decide, (format_bytes_integer 13 (by decide)).2 (by decide)⟩

/-- Claim C6 is false as stated over every non-negative integer: at
`n = 2^53 + 1` the float division `size / 1` (cli.py line 220) rounds `n` to
the nearest double `2^53` before `int` truncates it, so the forced-bytes
rendering is `"9007199254740992 B"`, not `"<n> B"`. -/
theorem format_bytes_integer_counterexample :
    formatSize ((9007199254740993 : Nat) : Int) (some UnitKey.b) =
      .ok "9007199254740992 B" ∧
    formatSize ((9007199254740993 : Nat) : Int) (some UnitKey.b) ≠
      .ok (toString (9007199254740993 : Nat) ++ " B") := by
  have h1 : formatSize ((9007199254740993 : Nat) : Int) (some UnitKey.b) =
      .ok "9007199254740992 B" := by rfl
  refine ⟨h1, ?_⟩
  rw [h1]
  intro hcontra
  exact absurd (Except.ok.inj hcontra) (by decide)

/-- Claim C3: for `1024^k ≤ n < 1024^(k+1)` with `k` in 1..4 and no forced
unit, `_format_size` selects the unit at exponent `k` and renders `n / 1024^k`
with exactly two decimal digits (round half to even, as CPython's `:.2f`
does on these exactly representable values) followed by that unit's suffix. -/
theorem format_auto_unit_selection (n k : Nat) (hk1 : 1 ≤ k) (hk4 : k ≤ 4)
    (hlo : 1024 ^ k ≤ n) (hhi : n < 1024 ^ (k + 1)) :
    formatSize (n : Int) none = .ok (fmtTwoDec n (1024 ^ k) ++ " " ++ expSuffix k) ∧
    (pad2 (roundHalfEven (100 * n) (1024 ^ k) % 100)).length = 2 := by
  have hpad : (pad2 (roundHalfEven (100 * n) (1024 ^ k) % 100)).length = 2 :=
    pad2_length _ (Nat.mod_lt _ (by norm_num))
  refine ⟨?_, hpad⟩
  rw [formatSize_nat]
  simp only [formatNonneg]
  rw [scanUnits_eq]
  interval_cases k
  · norm_num at hlo hhi ⊢
    rw [if_neg (by omega), if_neg (by omega), if_neg (by omega), if_pos hlo]
    simp [renderValue, expSuffix]
  · norm_num at hlo hhi ⊢
    rw [if_neg (by omega), if_neg (by omega), if_pos hlo]
    simp [renderValue, expSuffix]
  · norm_num at hlo hhi ⊢
    rw [if_neg (by omega), if_pos hlo]
    simp [renderValue, expSuffix]
  · norm_num at hlo hhi ⊢
    rw [if_pos hlo]
    simp [renderValue, expSuffix]

theorem format_auto_unit_selection_witness :
    formatSize ((1536 : Nat) : Int) none =
      .ok (fmtTwoDec 1536 (1024 ^ 1) ++ " " ++ expSuffix 1) :=
  (format_auto_unit_selection 1536 1 (by decide) (by decide) (by decide)
    (by decide)).1

theorem foldl_scanStep (items : List FSNode) (acc : SizeStats) :
    List.foldl scanStep acc items =
      SizeStats.mk (acc.files + (readableFileSizes items).length)
        (acc.size + (readableFileSizes items).sum) := by
  induction items generalizing acc with
  | nil => simp [readableFileSizes]
  | cons e rest ih =>
    rw [List.foldl_cons, ih]
    cases e with
    | file s statErr =>
      cases statErr with
      | none => simp [readableFileSizes, scanStep]; omega
      | some msg => simp [readableFileSizes, scanStep]
    | dir es le => simp [readableFileSizes, scanStep]
    | other => simp [readableFileSizes, scanStep]

theorem readable_top (es : List FSNode) (h : listOk es = true) :
    (readableFileSizes es).length = topCount es ∧
    (readableFileSizes es).sum = topSize es := by
  induction es with
  | nil => simp [readableFileSizes, topCount, topSize]
  | cons e rest ih =>
    simp only [listOk, Bool.and_eq_true] at h
    obtain ⟨he, hrest⟩ := h
    obtain ⟨ih1, ih2⟩ := ih hrest
    cases e with
    | file s statErr =>
      cases statErr with
      | none =>
        simp [readableFileSizes, topCount, topSize] at ih1 ih2 ⊢
        omega
      | some msg => simp [nodeOk] at he
    | dir es' le => simpa [readableFileSizes, topCount, topSize, ih1, ih2] using ⟨ih1, ih2⟩
    | other => simpa [readableFileSizes, topCount, topSize, ih1, ih2] using ⟨ih1, ih2⟩

theorem rglob_readable : ∀ es : List FSNode, listOk es = true →
    (readableFileSizes (rglobList es)).length = fileCountL es ∧
    (readableFileSizes (rglobList es)).sum = byteSizeL es
  | [], _ => by simp [rglobList, readableFileSizes, fileCountL, byteSizeL]
  | e :: rest, h => by
    simp only [listOk, Bool.and_eq_true] at h
    obtain ⟨he, hrest⟩ := h
    obtain ⟨ihr1, ihr2⟩ := rglob_readable rest hrest
    cases e with
    | file s statErr =>
      cases statErr with
      | none =>
        simp [rglobList, readableFileSizes, fileCountN, fileCountL, byteSizeN,
          byteSizeL] at ihr1 ihr2 ⊢
        omega
      | some msg => simp [nodeOk] at he
    | dir inner listErr =>
      cases listErr with
      | none =>
        have hinner : listOk inner = true := by simpa [nodeOk] using he
        obtain ⟨ihi1, ihi2⟩ := rglob_readable inner hinner
        simp [rglobList, readableFileSizes, List.filterMap_append, fileCountN,
          fileCountL, byteSizeN, byteSizeL] at ihi1 ihi2 ihr1 ihr2 ⊢
        omega
      | some msg => simp [nodeOk] at he
    | other =>
      simp [rglobList, readableFileSizes, fileCountN, fileCountL, byteSizeN,
        byteSizeL] at ihr1 ihr2 ⊢
      omega

theorem fileCountL_split (es : List FSNode) :
    fileCountL es = topCount es + subCount es := by
  induction es with
  | nil => simp [fileCountL, topCount, subCount]
  | cons e rest ih =>
    cases e with
    | file s statErr => simp [fileCountL, fileCountN, topCount, subCount, ih]; omega
    | dir inner le => simp [fileCountL, fileCountN, topCount, subCount, ih]; omega
    | other => simp [fileCountL, fileCountN, topCount, subCount, ih]

theorem byteSizeL_split (es : List FSNode) :
    byteSizeL es = topSize es + subSize es := by
  induction es with
  | nil => simp [byteSizeL, topSize, subSize]
  | cons e rest ih =>
    cases e with
    | file s statErr => simp [byteSizeL, byteSizeN, topSize, subSize, ih]; omega
    | dir inner le => simp [byteSizeL, byteSizeN, topSize, subSize, ih]; omega
    | other => simp [byteSizeL, byteSizeN, topSize, subSize, ih]

theorem getSizeLines_ok (cfg : Config) (fs : FileSystem) :
    ∀ paths : List String,
      (∀ p ∈ paths, resultCaught (processPath cfg fs p) = true) →
      getSizeLines cfg fs paths = .ok (paths.map (outcomeLine cfg fs))
  | [], _ => rfl
  | p :: rest, h => by
    have hp : resultCaught (processPath cfg fs p) = true := h p (by simp)
    have ih := getSizeLines_ok cfg fs rest (fun q hq => h q (by simp [hq]))
    simp only [getSizeLines, List.map_cons]
    cases hpp : processPath cfg fs p with
    | ok line => rw [ih]; simp [outcomeLine, hpp]
    | error e =>
      have hc : e.caughtByGetSize = true := by
        rw [hpp] at hp
        cases e <;> simp_all [resultCaught, PyErr.caughtByGetSize]
      simp [hc, ih, outcomeLine, hpp]

/-- Claim C8: no carry-over normalization — a byte count just below `1024^2`
renders as `"1024.00 KB"`, never as `"1.00 MB"`. -/
theorem format_no_carry_over :
    formatSize (1048575 : Int) none = .ok "1024.00 KB" ∧
    formatSize (1048575 : Int) none ≠ .ok "1.00 MB" := by
  have h1 : formatSize (1048575 : Int) none = .ok "1024.00 KB" := by rfl
  refine ⟨h1, ?_⟩
  rw [h1]
  intro hcontra
  exact absurd (Except.ok.inj hcontra) (by decide)

/-- Claim C4: for a directory with no unreadable entries anywhere,
non-recursive computation counts and sums the immediate regular files, and
recursive computation counts and sums those plus all regular files inside
subdirectories. -/
theorem directory_counts (p : String) (es : List FSNode) (h : listOk es = true) :
    computeSize false p (FSNode.dir es none) =
      .ok (SizeStats.mk (topCount es) (topSize es)) ∧
    computeSize true p (FSNode.dir es none) =
      .ok (SizeStats.mk (topCount es + subCount es) (topSize es + subSize es)) := by
  obtain ⟨ht1, ht2⟩ := readable_top es h
  obtain ⟨hr1, hr2⟩ := rglob_readable es h
  constructor
  · simp only [computeSize]
    rw [foldl_scanStep]
    simp [ht1, ht2]
  · simp only [computeSize]
    rw [foldl_scanStep]
    simp [hr1, hr2, fileCountL_split, byteSizeL_split]

theorem directory_counts_witness :
    computeSize false "d" (FSNode.dir [FSNode.file 100 none, FSNode.file 200 none,
      FSNode.dir [FSNode.file 300 none] none] none) = .ok (SizeStats.mk 2 300) ∧
    computeSize true "d" (FSNode.dir [FSNode.file 100 none, FSNode.file 200 none,
      FSNode.dir [FSNode.file 300 none] none] none) = .ok (SizeStats.mk 3 600) :=
  directory_counts "d" [FSNode.file 100 none, FSNode.file 200 none,
    FSNode.dir [FSNode.file 300 none] none] (by rfl)

/-- Claim C2: a path that does not exist at invocation time makes
`_process_path` raise `FileNotFoundError` before `_compute_size` is ever
reached; no (partial) result is returned. -/
theorem missing_path_not_found (cfg : Config) (fs : FileSystem) (p : String)
    (h : fs.lookup p = none) :
    processPath cfg fs p = .error (.fileNotFound ("Path does not exist: " ++ p)) := by
  simp [processPath, h]

theorem missing_path_not_found_witness :
    processPath cfgPlain fsDemo "missing" =
      .error (.fileNotFound ("Path does not exist: " ++ "missing")) :=
  missing_path_not_found cfgPlain fsDemo "missing" (by rfl)

/-- Claim C1 (amended): when no path triggers the `ValueError` of
`_compute_size`'s neither-file-nor-directory branch, `get_size` produces one
line per path in input order — the success line, or
`"<path>: Error - <message>"` for a path whose processing raised one of the
caught exception classes — and no such failure aborts the remaining paths.
(The `ValueError` case does abort; see the counterexample.) -/
theorem per_path_isolation (cfg : Config) (fs : FileSystem) (paths : List String)
    (h : ∀ p ∈ paths, resultCaught (processPath cfg fs p) = true) :
    getSizeLines cfg fs paths = .ok (paths.map (outcomeLine cfg fs)) ∧
    (paths.map (outcomeLine cfg fs)).length = paths.length ∧
    getSize cfg fs paths =
      .ok (String.intercalate "\n" (paths.map (outcomeLine cfg fs))) := by
  have hmain := getSizeLines_ok cfg fs paths h
  refine ⟨hmain, by simp, ?_⟩
  simp [getSize, hmain]

theorem per_path_isolation_witness :
    getSizeLines cfgPlain fsDemo ["missing", "a.txt"] =
      .ok (["missing", "a.txt"].map (outcomeLine cfgPlain fsDemo)) ∧
    (["missing", "a.txt"].map (outcomeLine cfgPlain fsDemo)).length =
      (["missing", "a.txt"] : List String).length ∧
    getSize cfgPlain fsDemo ["missing", "a.txt"] =
      .ok (String.intercalate "\n"
        (["missing", "a.txt"].map (outcomeLine cfgPlain fsDemo))) :=
  per_path_isolation cfgPlain fsDemo ["missing", "a.txt"] (by decide)

/-- Claim C1 is false as stated: a path that exists but is neither a regular
file nor a directory raises `ValueError`, which `get_size`'s `except` tuple
(cli.py line 127) does not catch, so processing aborts and the later path
`"a.txt"` is never reported. -/
theorem per_path_isolation_counterexample :
    getSize cfgPlain fsDemo ["weird", "a.txt"] =
      .error (.valueError "Path is neither file nor directory: weird") := by
  rfl

/-- Claim C9: in non-clean mode a successfully computed path is rendered as
`"<path>: <formatted size> (<fileCount> file|files)"`, with the singular
`"file"` exactly when the file count is 1. -/
theorem formatted_line_shape (cfg : Config) (fs : FileSystem) (p : String)
    (node : FSNode) (stats : SizeStats) (hclean : cfg.clean = false)
    (hlook : fs.lookup p = some node)
    (hcomp : computeSize cfg.recursive p node = .ok stats) :
    processPath cfg fs p = .ok (p ++ ": " ++ formatNonneg stats.size cfg.unit ++
      " (" ++ toString stats.files ++ " " ++
      (if stats.files = 1 then "file" else "files") ++ ")") ∧
    ((if stats.files = 1 then "file" else "files") = "file" ↔ stats.files = 1) := by
  constructor
  · simp only [processPath, hlook, hcomp]
    rw [formatSize_nat]
    simp [hclean]
  · constructor
    · intro hif
      by_contra hne
      rw [if_neg hne] at hif
      exact absurd hif (by decide)
    · intro h1
      rw [if_pos h1]

theorem formatted_line_shape_witness :
    processPath cfgPlain fsDemo "a.txt" =
      .ok ("a.txt" ++ ": " ++ formatNonneg 13 none ++ " (" ++ toString (1 : Nat) ++
        " " ++ (if (1 : Nat) = 1 then "file" else "files") ++ ")") :=
  (formatted_line_shape cfgPlain fsDemo "a.txt" (FSNode.file 13 none)
    (SizeStats.mk 1 13) rfl rfl rfl).1

/-- Claim C10: in clean mode a successfully computed path is rendered as the
decimal integer byte size, and the whole per-path outcome is independent of
the forced-unit flag. -/
theorem clean_mode_output (fs : FileSystem) (p : String) :
    (∀ (cfg : Config) (node : FSNode) (stats : SizeStats), cfg.clean = true →
      fs.lookup p = some node → computeSize cfg.recursive p node = .ok stats →
      processPath cfg fs p = .ok (toString stats.size)) ∧
    (∀ (r : Bool) (u1 u2 : Option UnitKey),
      processPath (Config.mk true r u1) fs p =
        processPath (Config.mk true r u2) fs p) := by
  constructor
  · intro cfg node stats hclean hlook hcomp
    simp only [processPath, hlook, hcomp]
    rw [formatSize_nat]
    simp [hclean]
  · intro r u1 u2
    simp only [processPath]
    cases hl : fs.lookup p with
    | none => rfl
    | some node =>
      dsimp only
      cases hc : computeSize r p node with
      | error e => rfl
      | ok stats =>
        dsimp only
        rw [formatSize_nat, formatSize_nat]
        rfl

theorem clean_mode_output_witness :
    processPath (Config.mk true false (some UnitKey.mb)) fsDemo "a.txt" =
      processPath (Config.mk true false none) fsDemo "a.txt" ∧
    processPath (Config.mk true false none) fsDemo "a.txt" =
      .ok (toString (13 : Nat)) :=
  ⟨(clean_mode_output fsDemo "a.txt").2 false (some UnitKey.mb) none,
   (clean_mode_output fsDemo "a.txt").1 (Config.mk true false none)
     (FSNode.file 13 none) (SizeStats.mk 1 13) rfl rfl rfl⟩

end FilesizeCli
